import Mathlib

/-!
Verification development for the `infra-deployer` repository.

The repository has two Python scripts:
  * `deploy-infra.py` — a thin wrapper over the `terraform` CLI that parses
    `var=value` assignments out of the argument list, cleans local state,
    assumes a privileged role, renders an S3 backend configuration and
    invokes `terraform init` followed by the operator-supplied command;
  * `release.py` — a build/release pipeline that builds a docker image and,
    when a version is supplied, ensures an ECR repository exists, logs in to
    every returned registry endpoint and pushes the image.

The scripts are embedded shallowly below: pure computations (the MD5-derived
bucket name, the backend-config template, argument parsing, base64 decoding)
are translated directly; effectful steps are modelled as functions from the
argument list and an oracle describing the outcomes of external calls
(AWS API results, subprocess exit statuses) to the trace of attempted
external actions together with the final outcome.
-/

/-! ### MD5 (as used by `hashlib.md5(...).hexdigest()` in `deploy-infra.py`)

`deploy-infra.py` derives the state-bucket name from
`hashlib.md5(account_id.encode('utf-8')).hexdigest()[:6]`.  `hashlib` is a
library the script calls; the algorithm is reproduced here so that the
derivation is a concrete computable function.  It is validated below against
the standard test vectors for the empty string and "abc". -/

namespace MD5

def M32 : Nat := 4294967296

def add32 (a b : Nat) : Nat := (a + b) % M32

def not32 (a : Nat) : Nat := Nat.xor a 4294967295

def rotl32 (x s : Nat) : Nat := (Nat.lor (x <<< s) (x >>> (32 - s))) % M32

/-- UTF-8 encoding of one code point (Python `str.encode('utf-8')`). -/
def utf8Encode (c : Char) : List Nat :=
  let n := c.toNat
  if n < 128 then [n]
  else if n < 2048 then [192 + n / 64, 128 + n % 64]
  else if n < 65536 then [224 + n / 4096, 128 + (n / 64) % 64, 128 + n % 64]
  else [240 + n / 262144, 128 + (n / 4096) % 64, 128 + (n / 64) % 64, 128 + n % 64]

def strBytes (s : String) : List Nat := (s.data.map utf8Encode).flatten

/-- Per-round additive constants, `floor(abs(sin(i+1)) * 2^32)`. -/
def K : List Nat :=
  [3614090360, 3905402710, 606105819, 3250441966, 4118548399, 1200080426,
   2821735955, 4249261313, 1770035416, 2336552879, 4294925233, 2304563134,
   1804603682, 4254626195, 2792965006, 1236535329, 4129170786, 3225465664,
   643717713, 3921069994, 3593408605, 38016083, 3634488961, 3889429448,
   568446438, 3275163606, 4107603335, 1163531501, 2850285829, 4243563512,
   1735328473, 2368359562, 4294588738, 2272392833, 1839030562, 4259657740,
   2763975236, 1272893353, 4139469664, 3200236656, 681279174, 3936430074,
   3572445317, 76029189, 3654602809, 3873151461, 530742520, 3299628645,
   4096336452, 1126891415, 2878612391, 4237533241, 1700485571, 2399980690,
   4293915773, 2240044497, 1873313359, 4264355552, 2734768916, 1309151649,
   4149444226, 3174756917, 718787259, 3951481745]

/-- Per-round left-rotation amounts. -/
def S : List Nat :=
  [7, 12, 17, 22, 7, 12, 17, 22, 7, 12, 17, 22, 7, 12, 17, 22,
   5, 9, 14, 20, 5, 9, 14, 20, 5, 9, 14, 20, 5, 9, 14, 20,
   4, 11, 16, 23, 4, 11, 16, 23, 4, 11, 16, 23, 4, 11, 16, 23,
   6, 10, 15, 21, 6, 10, 15, 21, 6, 10, 15, 21, 6, 10, 15, 21]

/-- Message padding: a 0x80 byte, zeros to 56 mod 64, then the bit length
as eight little-endian bytes. -/
def padded (msg : List Nat) : List Nat :=
  let bitLen := msg.length * 8
  let zeros := (55 + 64 - msg.length % 64) % 64
  msg ++ [128] ++ List.replicate zeros 0 ++
    [bitLen % 256, bitLen / 256 % 256, bitLen / 65536 % 256,
     bitLen / 16777216 % 256, bitLen / 4294967296 % 256,
     bitLen / 1099511627776 % 256, bitLen / 281474976710656 % 256,
     bitLen / 72057594037927936 % 256]

/-- Little-endian 32-bit word `g` of a 64-byte chunk. -/
def word (chunk : List Nat) (g : Nat) : Nat :=
  chunk.getD (4 * g) 0 + 256 * chunk.getD (4 * g + 1) 0 +
    65536 * chunk.getD (4 * g + 2) 0 + 16777216 * chunk.getD (4 * g + 3) 0

def roundStep (chunk : List Nat) (st : Nat × Nat × Nat × Nat) (i : Nat) :
    Nat × Nat × Nat × Nat :=
  let (a, b, c, d) := st
  let f :=
    if i < 16 then Nat.lor (Nat.land b c) (Nat.land (not32 b) d)
    else if i < 32 then Nat.lor (Nat.land d b) (Nat.land (not32 d) c)
    else if i < 48 then Nat.xor b (Nat.xor c d)
    else Nat.xor c (Nat.lor b (not32 d))
  let g :=
    if i < 16 then i
    else if i < 32 then (5 * i + 1) % 16
    else if i < 48 then (3 * i + 5) % 16
    else (7 * i) % 16
  let t := add32 (add32 (add32 f a) (K.getD i 0)) (word chunk g)
  (d, add32 b (rotl32 t (S.getD i 0)), b, c)

def compress (st : Nat × Nat × Nat × Nat) (chunk : List Nat) :
    Nat × Nat × Nat × Nat :=
  let (a0, b0, c0, d0) := st
  let (a, b, c, d) := (List.range 64).foldl (roundStep chunk) (a0, b0, c0, d0)
  (add32 a0 a, add32 b0 b, add32 c0 c, add32 d0 d)

def chunksLoop : Nat → List Nat → Nat × Nat × Nat × Nat → Nat × Nat × Nat × Nat
  | 0, _, st => st
  | n + 1, bytes, st => chunksLoop n (bytes.drop 64) (compress st (bytes.take 64))

def hexChar (n : Nat) : Char :=
  if n < 10 then Char.ofNat (48 + n) else Char.ofNat (87 + n)

/-- Two lowercase hex digits of one byte. -/
def byteHex (b : Nat) : List Char := [hexChar (b / 16), hexChar (b % 16)]

/-- Four little-endian bytes of a 32-bit word. -/
def wordBytes (w : Nat) : List Nat :=
  [w % 256, w / 256 % 256, w / 65536 % 256, w / 16777216 % 256]

/-- The four 32-bit state words after processing the whole padded message. -/
def digestState (s : String) : Nat × Nat × Nat × Nat :=
  let msg := padded (strBytes s)
  chunksLoop (msg.length / 64) msg (1732584193, 4023233417, 2562383102, 271733878)

/-- `hashlib.md5(s.encode('utf-8')).hexdigest()`. -/
def md5Hex (s : String) : String :=
  String.mk (((wordBytes (digestState s).1 ++ wordBytes (digestState s).2.1 ++
    wordBytes (digestState s).2.2.1 ++ wordBytes (digestState s).2.2.2).map byteHex).flatten)

end MD5

set_option maxRecDepth 100000

/-! ### Embedding of `deploy-infra.py`

Pure parts (`parse_args`, `generate_terraform_config`, the bucket-name
derivation) are translated directly.  `main` is modelled as a function from
the argument list and an oracle (outcomes of the external calls: role
assumption, the two `check_call` invocations) to the ordered trace of
attempted external actions plus the final outcome.  Python's dict of parsed
variables is modelled as a finite map `String → Option String`; the script
only ever accesses it by key (`[...]` and `.get`), never by iteration. -/

namespace DeployInfra

def required_vars : List String :=
  ["env", "component", "state_aws_region", "aws_region", "account_id"]

def optional_vars : List String := ["state_aws_region"]

/-- Python `str.split(sep)` for a one-character separator, on the character
list (structural, so that it evaluates by kernel reduction). -/
def splitOnChar (sep : Char) (cs : List Char) : List (List Char) :=
  cs.foldr
    (fun c acc =>
      match acc with
      | [] => [[c]]
      | cur :: rest => if c = sep then [] :: cur :: rest else (c :: cur) :: rest)
    [[]]

/-- Python `s.split(sep)` (one-character separator). -/
def splitChar (sep : Char) (s : String) : List String :=
  (splitOnChar sep s.data).map String.mk

/-- `arg.split("=")[1]` for an argument that matched `^var=`. -/
def argValue (arg : String) : String :=
  match splitChar '=' arg with
  | _ :: v :: _ => v
  | _ => ""

/-- `re.compile('^' + var + '=').search(arg)`: the anchored pattern holds
exactly when `arg` starts with `var ++ "="`. -/
def startsWithVar (arg pre : String) : Bool :=
  pre.data.isPrefixOf arg.data

/-- The value of the last argument matching `^var=` (the parser's inner loop
overwrites `found_vars[var]` on every match, so the last one wins). -/
def lastValue (args : List String) (var : String) : Option String :=
  args.foldl (fun acc arg => if startsWithVar arg (var ++ "=") then some (argValue arg) else acc) none

/-- Python dict, accessed by key only. -/
abbrev Dict : Type := String → Option String

def emptyDict : Dict := fun _ => none

/-- `found_vars[var] = value`. -/
def dictInsert (d : Dict) (k v : String) : Dict :=
  fun q => if q = k then some v else d q

/-- One of the collection loops of `parse_args`: for each variable in `vars`,
record the value of the last matching argument, if any. -/
def collect (args : List String) (vars : List String) (acc : Dict) : Dict :=
  vars.foldl
    (fun acc var =>
      match lastValue args var with
      | some v => dictInsert acc var v
      | none => acc)
    acc

/-- The `found_vars` dict after both loops of `parse_args` (the loop over
`required_vars` then the loop over `optional_vars`). -/
def found_vars (args : List String) : Dict :=
  collect args optional_vars (collect args required_vars emptyDict)

/-- The first variable the validation loop of `parse_args` finds missing. -/
def firstMissing (args : List String) : Option String :=
  required_vars.find? (fun var => (found_vars args var).isNone)

def missingVarMsg (var : String) : String :=
  "Error: Please specify missing variable: -var " ++ var ++ "=<value>"

/-- `parse_args`: the error carries the variable named in the message written
to stderr just before `sys.exit(1)`. -/
def parse_args (args : List String) : Except String Dict :=
  match firstMissing args with
  | some var => .error var
  | none => .ok (found_vars args)

/-- Python `s[:n]` on a string. -/
def strTake (s : String) (n : Nat) : String := String.mk (s.data.take n)

/-- `s3_bucket_name = s3_bucket_prefix + hashlib.md5(account_id).hexdigest()[:6]`
with `s3_bucket_prefix = "terraform-tfstate-"`. -/
def s3BucketName (account_id : String) : String :=
  "terraform-tfstate-" ++ strTake (MD5.md5Hex account_id) 6

/-- `state_config_template.format(...)` (literal braces written as escapes). -/
def stateConfigText (s3_bucket environment component region : String) : String :=
  "\nterraform \x7b\n  backend \"s3\" \x7b\n    bucket = \"" ++ s3_bucket ++
  "\"\n    key    = \"" ++ environment ++ "/" ++ component ++
  "/terraform.tfstate\"\n    region = \"" ++ region ++
  "\"\n    dynamodb_table = \"terraform_locks\"\n  \x7d\n\x7d\n"

/-- `generate_terraform_config`: returns the path and contents written, or
`none` on a `KeyError` (a required key absent, impossible after validation).
Key accesses appear in source order: `aws_region` (inside the `.get` default),
then `env`, `component`, `account_id`. -/
def generate_terraform_config (parsed : Dict) : Option (String × String) :=
  match parsed "aws_region" with
  | none => none
  | some aws_region =>
    let region := (parsed "state_aws_region").getD aws_region
    match parsed "env", parsed "component", parsed "account_id" with
    | some environment, some component_name, some account_id =>
      some ("infra/state.tf",
        stateConfigText (s3BucketName account_id) environment component_name region)
    | _, _, _ => none

/-- `admin_role_arn` as built in `assume_role`. -/
def adminRoleArn (account_id : String) : String :=
  "arn:aws:iam::" ++ account_id ++ ":role/admin"

/-- Local filesystem abstraction: the set of existing paths. -/
abbrev FS : Type := List String

/-- `os.remove` / `shutil.rmtree`: fails when the target is absent. -/
def removePath (fs : FS) (p : String) : Except Unit FS :=
  if p ∈ fs then .ok (fs.filter (fun q => q ≠ p)) else .error ()

/-- `cleanup()`: each removal is wrapped in `try ... except: pass`, so the
function is total — it never raises, whatever the filesystem state. -/
def cleanup (fs : FS) : FS :=
  let fs1 :=
    match removePath fs "infra/state.tf" with
    | .ok f => f
    | .error _ => fs
  match removePath fs1 "infra/.terraform" with
  | .ok f => f
  | .error _ => fs1

/-- Trace events: the external actions `main` attempts, in order. -/
inductive Ev
  | stderr (msg : String)
  | tryRemoveFile (path : String)
  | tryRmtree (path : String)
  | assumeRole (roleArn : String) (sessionName : String)
  | writeFile (path : String) (content : String)
  | credstash (table : String) (component : String) (env : String)
  | symlink (target : String) (linkName : String)
  | call (cmd : List String) (cwd : String)
  deriving DecidableEq

/-- The two removal attempts one `cleanup()` call makes. -/
def cleanupEvents : List Ev :=
  [.tryRemoveFile "infra/state.tf", .tryRmtree "infra/.terraform"]

inductive RunResult
  | success
  | usageExit (code : Nat)
  | keyError
  | assumeFailed
  | callFailed (cmd : List String)
  deriving DecidableEq

/-- Outcomes of the external calls `main` makes. -/
structure Oracle where
  assumeOk : Bool
  initOk : Bool
  toolOk : Bool
  secretsPath : String
  deriving DecidableEq

/-- `main()`: parse, cleanup, assume role, write backend config, credstash +
symlink, `terraform init`, `terraform <all_args>`, cleanup.  Note the source
has no `try`/`finally`: an exception from either `check_call` propagates past
the final `cleanup()`. -/
def mainRun (args : List String) (o : Oracle) : List Ev × RunResult :=
  match parse_args args with
  | .error var => ([.stderr (missingVarMsg var)], .usageExit 1)
  | .ok parsed =>
    let evs := cleanupEvents
    match parsed "account_id" with
    | none => (evs, .keyError)
    | some account_id =>
      let evs := evs ++ [.assumeRole (adminRoleArn account_id) "terraform"]
      if o.assumeOk then
        match generate_terraform_config parsed,
              parsed "aws_region", parsed "env", parsed "component" with
        | some (path, content), some _, some environment, some component_name =>
          let evs := evs ++
            [.writeFile path content,
             .credstash "platform" component_name environment,
             .symlink o.secretsPath "/tmp/secrets.json",
             .call ["terraform", "init"] "infra"]
          if o.initOk then
            let evs := evs ++ [.call (["terraform"] ++ args) "infra"]
            if o.toolOk then (evs ++ cleanupEvents, .success)
            else (evs, .callFailed (["terraform"] ++ args))
          else (evs, .callFailed ["terraform", "init"])
        | _, _, _, _ => (evs, .keyError)
      else (evs, .assumeFailed)

def isCall : Ev → Bool
  | .call _ _ => true
  | _ => false

def isStderr : Ev → Bool
  | .stderr _ => true
  | _ => false

/-- A `cleanup()` execution is identified by its attempt to remove the
backend-config artifact. -/
def isCleanupMark : Ev → Bool
  | .tryRemoveFile p => p = "infra/state.tf"
  | _ => false

def countCleanups (evs : List Ev) : Nat := evs.countP isCleanupMark

/-- The events that occur strictly after the last subprocess invocation. -/
def afterLastCall (evs : List Ev) : List Ev :=
  (List.takeWhile (fun e => !isCall e) evs.reverse).reverse

/-- Example argument list from the spec's example scenario. -/
def exampleArgs : List String :=
  ["env=staging", "component=payments", "state_aws_region=eu-west-1",
   "aws_region=eu-west-1", "account_id=123456789012", "plan"]

/-- An all-succeeding oracle. -/
def oracleOk : Oracle :=
  { assumeOk := true, initOk := true, toolOk := true, secretsPath := "/tmp/sec" }

/-- An oracle where the forwarded terraform invocation fails. -/
def oracleToolFails : Oracle :=
  { assumeOk := true, initOk := true, toolOk := false, secretsPath := "/tmp/sec" }

end DeployInfra

/-! ### Embedding of `release.py`

`Release.__init__` resolves the identity context through external
collaborators (`docopt`, `util.*` loaders); its result is modelled as the
`Release.State` record.  `create`, `_build_slug`, `_ensure_ecr_repository_exists`
and `_push_to_ecr` are embedded as trace-producing functions over an oracle
describing the outcomes of the AWS calls and subprocesses. -/

namespace B64

/-- Position of a character in the standard base64 alphabet. -/
def b64Index (c : Char) : Option Nat :=
  if 65 ≤ c.toNat ∧ c.toNat ≤ 90 then some (c.toNat - 65)
  else if 97 ≤ c.toNat ∧ c.toNat ≤ 122 then some (c.toNat - 97 + 26)
  else if 48 ≤ c.toNat ∧ c.toNat ≤ 57 then some (c.toNat - 48 + 52)
  else if c = '+' then some 62
  else if c = '/' then some 63
  else none

/-- Reassemble bytes from 6-bit groups; a trailing group of one sextet is
invalid. -/
def groupBytes : List Nat → Option (List Nat)
  | [] => some []
  | [_] => none
  | [a, b] => some [a * 4 + b / 16]
  | [a, b, c] => some [a * 4 + b / 16, b % 16 * 16 + c / 4]
  | a :: b :: c :: d :: rest =>
    (groupBytes rest).map
      (fun tail => (a * 4 + b / 16) :: (b % 16 * 16 + c / 4) :: (c % 4 * 64 + d) :: tail)

/-- `base64.b64decode`: characters outside the alphabet are discarded, the
padded length must be a multiple of four, `=` only terminates. -/
def b64decode (s : String) : Option (List Nat) :=
  let kept := s.data.filter (fun c => (b64Index c).isSome || c = '=')
  if kept.length % 4 ≠ 0 then none
  else groupBytes (kept.filterMap b64Index)

/-- `b64decode(tok).decode('utf-8')` for the ASCII `user:password` tokens the
registry issues (bytes are mapped to code points directly). -/
def decodeToken (tok : String) : Option String :=
  (b64decode tok).map (fun bs => String.mk (bs.map Char.ofNat))

end B64

namespace Release

/-- `username, password = decoded.split(':')` — unpacking raises `ValueError`
unless the split yields exactly two parts. -/
def splitUserPass (s : String) : Option (String × String) :=
  match DeployInfra.splitChar ':' s with
  | [u, p] => some (u, p)
  | _ => none

/-- The fields of a constructed `Release` object that `create` and the push
path read: the optional version, the component name, the metadata entries
used, the image name and the production account id. -/
structure State where
  version : Option String
  component_name : String
  TYPE : String
  DOCKER_BUILD_DIR : String
  SLUG_BUILDER_DOCKER_OPTS : String
  ecr_image_name : String
  prod_account_id : String

inductive DescribeResult
  | found
  | notFound
  | otherError (code : String)
  deriving DecidableEq

/-- Outcomes of the external calls the release flow makes. -/
structure Oracle where
  slug1 : Bool
  slug2 : Bool
  slug3 : Bool
  prepareHookPresent : Bool
  prepareHookOk : Bool
  buildOk : Bool
  onBuildHookPresent : Bool
  onBuildHookOk : Bool
  describe : DescribeResult
  createOk : Bool
  policyOk : Bool
  authData : List (String × String)
  loginOk : Nat → Bool
  pushOk : Bool

inductive Ev
  | msg (s : String)
  | shellRun (cmd : String)
  | hookCall (cmd : String)
  | dockerBuild (cmd : String)
  | dockerLogin (cmd : String)
  | dockerPush (cmd : String)
  | describeRepositories (name : String)
  | createRepository (name : String)
  | setRepositoryPolicy (name : String) (principalArn : String) (actions : List String)
  | getAuthorizationToken
  deriving DecidableEq

inductive Err
  | clientError (code : String)
  | processError (cmd : String)
  | valueError
  deriving DecidableEq

/-- The `PREFIX` logging constant of `release.py`. -/
def logHead : String := "infra/release: "

def policyActions : List String :=
  ["ecr:GetDownloadUrlForLayer", "ecr:BatchGetImage", "ecr:BatchCheckLayerAvailability"]

def principalArn (prod_account_id : String) : String :=
  "arn:aws:iam::" ++ prod_account_id ++ ":root"

/-- `_ensure_ecr_repository_exists`: describe; on the specific
`RepositoryNotFoundException` create the repository then attach the
cross-account policy, on any other `ClientError` re-raise it unmodified. -/
def ensure_ecr_repository_exists (r : State) (o : Oracle) : List Ev × Except Err Unit :=
  let pre := [Ev.msg (logHead ++ "checking ECR repository"),
              Ev.describeRepositories r.component_name]
  match o.describe with
  | .found => (pre, .ok ())
  | .otherError code => (pre, .error (.clientError code))
  | .notFound =>
    let evs := pre ++ [Ev.createRepository r.component_name]
    if o.createOk then
      let evs := evs ++
        [Ev.setRepositoryPolicy r.component_name (principalArn r.prod_account_id) policyActions]
      if o.policyOk then (evs, .ok ())
      else (evs, .error (.clientError "SetRepositoryPolicyFailed"))
    else (evs, .error (.clientError "CreateRepositoryFailed"))

def dockerLoginCmd (u p endpoint : String) : String :=
  "docker login -u '" ++ u ++ "' -p '" ++ p ++ "' " ++ endpoint

/-- The login loop of `_push_to_ecr`: decode each entry's token, then
`docker login` against its endpoint; the first failure aborts. -/
def runLogins (okF : Nat → Bool) : List (String × String) → List Ev × Except Err Unit
  | [] => ([], .ok ())
  | (tok, endpoint) :: rest =>
    match (B64.decodeToken tok).bind splitUserPass with
    | none => ([], .error .valueError)
    | some (u, p) =>
      let cmd := dockerLoginCmd u p endpoint
      if okF 0 then
        let next := runLogins (fun n => okF (n + 1)) rest
        (Ev.dockerLogin cmd :: next.1, next.2)
      else ([Ev.dockerLogin cmd], .error (.processError cmd))

/-- The expected login event of one authorization-data entry. -/
def loginEv (e : String × String) : Ev :=
  match (B64.decodeToken e.1).bind splitUserPass with
  | some (u, p) => Ev.dockerLogin (dockerLoginCmd u p e.2)
  | none => Ev.dockerLogin ""

/-- `_push_to_ecr`: ensure the repository, obtain the authorization token
set, log in per entry, then push once. -/
def push_to_ecr (r : State) (o : Oracle) (image : String) : List Ev × Except Err Unit :=
  match ensure_ecr_repository_exists r o with
  | (ee, .error e) => (ee, .error e)
  | (ee, .ok ()) =>
    let evs := ee ++ [Ev.msg (logHead ++ "logging into ECR"), Ev.getAuthorizationToken]
    match runLogins o.loginOk o.authData with
    | (le, .error e) => (evs ++ le, .error e)
    | (le, .ok ()) =>
      let evs := evs ++ le ++ [Ev.msg (logHead ++ "pushing image " ++ image)]
      let cmd := "docker push " ++ image
      if o.pushOk then (evs ++ [Ev.dockerPush cmd], .ok ())
      else (evs ++ [Ev.dockerPush cmd], .error (.processError cmd))

/-- The shell pipeline `_build_slug` runs to produce `target/slug.tgz`
(literal braces written as escapes). -/
def tarSlugCmd (opts : String) : String :=
  "\n            tar -cf - $(\n                    ls -A |\n                    grep -v '^.git/\\\x7b0,1\\\x7d$' |\n                    grep -v '^build/\\\x7b0,1\\\x7d$' |\n                    grep -v '^target/\\\x7b0,1\\\x7d$' |\n                    grep -v '^infrastructure/\\\x7b0,1\\\x7d$' |\n                    grep -v '^node_modules/\\\x7b0,1\\\x7d$'\n                ) | docker run -v /tmp/cache:/tmp/cache:rw --rm -i -a stdin -a stdout -a stderr\n        "
  ++ opts ++ " flynn/slugbuilder - > target/slug.tgz\n        "

/-- `_build_slug`: three `shell_runner.run` steps, then
`metadata['DOCKER_BUILD_DIR'] = 'target'`.  `util.ShellRunner` is not in the
sources; modelled from the spec: a failing build step is fatal. -/
def build_slug (r : State) (o : Oracle) : List Ev × Except Err State :=
  let e0 := [Ev.msg (logHead ++ "building slug"), Ev.shellRun "mkdir -p target"]
  if o.slug1 then
    let e1 := e0 ++ [Ev.shellRun (tarSlugCmd r.SLUG_BUILDER_DOCKER_OPTS)]
    if o.slug2 then
      let e2 := e1 ++ [Ev.shellRun "cp /infra/Dockerfile_slug target/Dockerfile"]
      if o.slug3 then (e2, .ok { r with DOCKER_BUILD_DIR := "target" })
      else (e2, .error (.processError "cp /infra/Dockerfile_slug target/Dockerfile"))
    else (e1, .error (.processError "tar slug"))
  else (e0, .error (.processError "mkdir -p target"))

/-- The slug branch at the top of `create`. -/
def slug_step (r : State) (o : Oracle) : List Ev × Except Err State :=
  if r.TYPE = "slug" then build_slug r o else ([], .ok r)

/-- `"./prepare-docker-build %s-%s %s"` with `version = self.version if
self.version is not None else 'dev'`. -/
def prepareBuildCmd (r : State) : String :=
  "./prepare-docker-build " ++ r.component_name ++ "-" ++ r.version.getD "dev" ++
    " " ++ r.DOCKER_BUILD_DIR

/-- The optional `prepare-docker-build` hook step of `create`. -/
def prepare_step (r : State) (o : Oracle) : List Ev × Except Err Unit :=
  if o.prepareHookPresent then
    let cmd := prepareBuildCmd r
    let evs := [Ev.msg (logHead ++ "running " ++ cmd), Ev.hookCall cmd]
    if o.prepareHookOk then (evs, .ok ()) else (evs, .error (.processError cmd))
  else ([], .ok ())

def dockerBuildCmd (r : State) : String :=
  "docker build -t " ++ r.ecr_image_name ++ " " ++ r.DOCKER_BUILD_DIR

/-- The optional `on-docker-build` hook step of `create`. -/
def on_build_step (r : State) (o : Oracle) : List Ev × Except Err Unit :=
  if o.onBuildHookPresent then
    let cmd := "./on-docker-build " ++ r.ecr_image_name
    let evs := [Ev.msg (logHead ++ "running " ++ cmd), Ev.hookCall cmd]
    if o.onBuildHookOk then (evs, .ok ()) else (evs, .error (.processError cmd))
  else ([], .ok ())

/-- The version branch at the end of `create`: absent version logs the skip,
present version runs the push path. -/
def push_branch (r : State) (o : Oracle) : List Ev × Except Err Unit :=
  match r.version with
  | none => ([Ev.msg (logHead ++ "no version supplied, push skipped")], .ok ())
  | some _ => push_to_ecr r o r.ecr_image_name

/-- `Release.create`. -/
def create (r0 : State) (o : Oracle) : List Ev × Except Err Unit :=
  match slug_step r0 o with
  | (evs, .error e) => (evs, .error e)
  | (evs, .ok r) =>
    match prepare_step r o with
    | (e2, .error e) => (evs ++ e2, .error e)
    | (e2, .ok ()) =>
      let evs := evs ++ e2 ++
        [Ev.msg (logHead ++ "building docker image " ++ r.ecr_image_name),
         Ev.dockerBuild (dockerBuildCmd r)]
      if o.buildOk then
        let evs := evs ++ [Ev.msg (logHead ++ "image " ++ r.ecr_image_name ++ " successfully built")]
        match on_build_step r o with
        | (e4, .error e) => (evs ++ e4, .error e)
        | (e4, .ok ()) =>
          match push_branch r o with
          | (pe, .error e) => (evs ++ e4 ++ pe, .error e)
          | (pe, .ok ()) => (evs ++ e4 ++ pe ++ [Ev.msg (logHead ++ "done.")], .ok ())
      else (evs, .error (.processError (dockerBuildCmd r)))

def isPush : Ev → Bool
  | .dockerPush _ => true
  | _ => false

def isLogin : Ev → Bool
  | .dockerLogin _ => true
  | _ => false

def isCreate : Ev → Bool
  | .createRepository _ => true
  | _ => false

def isPolicy : Ev → Bool
  | .setRepositoryPolicy _ _ _ => true
  | _ => false

/-- Registry, authentication and push operations: everything the no-version
path must not perform. -/
def isRegistryEv : Ev → Bool
  | .describeRepositories _ => true
  | .createRepository _ => true
  | .setRepositoryPolicy _ _ _ => true
  | .getAuthorizationToken => true
  | .dockerLogin _ => true
  | .dockerPush _ => true
  | _ => false

end Release

/-! ### Statement helpers

String builders used to phrase what the backend-config artifact declares
(the spec's reading of the template), compared against the source-derived
`stateConfigText`. -/

namespace DeployInfra

def bucketLine (b : String) : String := "bucket = \"" ++ b ++ "\""

def keyLine (environment component : String) : String :=
  "key    = \"" ++ environment ++ "/" ++ component ++ "/terraform.tfstate\""

def regionLine (r : String) : String := "region = \"" ++ r ++ "\""

def lockLine : String := "dynamodb_table = \"terraform_locks\""

def hexDigits : String := "0123456789abcdef"

end DeployInfra

/-! ### Concrete sample inputs for the release flow -/

namespace Release

/-- A constructed release for component `payments` at version 1.2.3. -/
def sampleState : State :=
  { version := some "1.2.3"
    component_name := "payments"
    TYPE := "docker"
    DOCKER_BUILD_DIR := "."
    SLUG_BUILDER_DOCKER_OPTS := ""
    ecr_image_name := "123456789012.dkr.ecr.eu-west-1.amazonaws.com/payments:1.2.3"
    prod_account_id := "987654321098" }

/-- The same release built without a version argument. -/
def sampleStateNoVersion : State := { sampleState with version := none }

/-- An all-succeeding oracle: repository already exists, one registry
endpoint whose token decodes to `AWS:pw`. -/
def oracleAllOk : Oracle :=
  { slug1 := true, slug2 := true, slug3 := true
    prepareHookPresent := false, prepareHookOk := true
    buildOk := true
    onBuildHookPresent := false, onBuildHookOk := true
    describe := .found, createOk := true, policyOk := true
    authData := [("QVdTOnB3", "https://123456789012.dkr.ecr.eu-west-1.amazonaws.com")]
    loginOk := fun _ => true
    pushOk := true }

/-- As `oracleAllOk` but the repository is missing. -/
def oracleNotFound : Oracle := { oracleAllOk with describe := .notFound }

/-- As `oracleAllOk` but the describe call fails with another error. -/
def oracleDescribeFails : Oracle := { oracleAllOk with describe := .otherError "AccessDenied" }

/-- As `oracleAllOk` but every docker login fails. -/
def oracleLoginFails : Oracle := { oracleAllOk with loginOk := fun _ => false }

/-- As `oracleAllOk` but the `prepare-docker-build` hook exists. -/
def oracleWithPrepareHook : Oracle := { oracleAllOk with prepareHookPresent := true }

end Release

set_option maxRecDepth 100000

/-- MD5 test vector: the empty string. -/
theorem md5_empty : MD5.md5Hex "" = "d41d8cd98f00b204e9800998ecf8427e" := by decide

/-- MD5 test vector: "abc". -/
theorem md5_abc : MD5.md5Hex "abc" = "900150983cd24fb0d6963f7d28e17f72" := by decide

/-- The digest of the example account id from the spec's example scenario. -/
theorem md5_example_account :
    MD5.md5Hex "123456789012" = "3417973cd67f37b077e56b82f0cc306f" := by decide

/-- Base64 sanity check: "QVdTOnB3" decodes to "AWS:pw" and splits into the
credential pair. -/
theorem b64_token_example :
    B64.decodeToken "QVdTOnB3" = some "AWS:pw" ∧
    Release.splitUserPass "AWS:pw" = some ("AWS", "pw") := by decide

/-! ### Supporting lemmas: argument parsing -/

namespace DeployInfra

theorem collect_apply (args : List String) (vars : List String) (acc : Dict) (k : String) :
    collect args vars acc k =
      if k ∈ vars ∧ (lastValue args k).isSome then lastValue args k else acc k := by
  induction vars generalizing acc with
  | nil => simp [collect]
  | cons var rest ih =>
    have step : collect args (var :: rest) acc =
        collect args rest
          (match lastValue args var with
           | some v => dictInsert acc var v
           | none => acc) := rfl
    rw [step, ih]
    by_cases hk : k = var
    · subst hk
      cases h : lastValue args k with
      | none => simp [h]
      | some v => simp [h, dictInsert]
    · cases h : lastValue args var with
      | none => simp [hk]
      | some v => simp [hk, dictInsert, Ne.symm hk]

theorem found_vars_apply (args : List String) (v : String) (hv : v ∈ required_vars) :
    found_vars args v = lastValue args v := by
  unfold found_vars
  rw [collect_apply, collect_apply]
  cases h : lastValue args v with
  | none => simp [emptyDict]
  | some x => simp [h, hv, emptyDict]

theorem parse_args_ok_lookup (args : List String) (parsed : Dict)
    (h : parse_args args = .ok parsed) (v : String) (hv : v ∈ required_vars) :
    (parsed v).isSome := by
  unfold parse_args at h
  cases hfm : firstMissing args with
  | some w => rw [hfm] at h; exact absurd h (by simp)
  | none =>
    rw [hfm] at h
    cases h
    unfold firstMissing at hfm
    have hne := List.find?_eq_none.mp hfm v hv
    exact Option.isSome_iff_ne_none.mpr (by simpa using hne)

end DeployInfra

/-! ### Supporting lemmas: the MD5 hex digest -/

theorem hexChar_mem (n : Nat) (h : n < 16) :
    MD5.hexChar n ∈ DeployInfra.hexDigits.data := by
  interval_cases n <;> decide

theorem md5Hex_data (s : String) :
    (MD5.md5Hex s).data =
      ((MD5.wordBytes (MD5.digestState s).1 ++ MD5.wordBytes (MD5.digestState s).2.1 ++
        MD5.wordBytes (MD5.digestState s).2.2.1 ++ MD5.wordBytes (MD5.digestState s).2.2.2).map
        MD5.byteHex).flatten := rfl

theorem md5Hex_length (s : String) : (MD5.md5Hex s).data.length = 32 := by
  rw [md5Hex_data]
  simp [MD5.wordBytes, MD5.byteHex]

theorem md5Hex_chars (s : String) :
    ∀ ch ∈ (MD5.md5Hex s).data, ch ∈ DeployInfra.hexDigits.data := by
  rw [md5Hex_data]
  intro ch hch
  rw [List.mem_flatten] at hch
  obtain ⟨l, hl, hcl⟩ := hch
  rw [List.mem_map] at hl
  obtain ⟨b, hb, rfl⟩ := hl
  have hb256 : b < 256 := by
    simp [MD5.wordBytes, List.mem_append] at hb
    rcases hb with hh | hh | hh | hh | hh | hh | hh | hh |
        hh | hh | hh | hh | hh | hh | hh | hh <;> omega
  simp [MD5.byteHex] at hcl
  rcases hcl with rfl | rfl
  · exact hexChar_mem _ (by omega)
  · exact hexChar_mem _ (by omega)

/-! ### Supporting lemmas: the rendered backend configuration -/

namespace DeployInfra

theorem strTake_data (s : String) (n : Nat) : (strTake s n).data = s.data.take n := rfl

theorem stateConfigText_eq (b e c r : String) :
    stateConfigText b e c r =
      "\nterraform \x7b\n  backend \"s3\" \x7b\n    " ++ bucketLine b ++ "\n    " ++
        keyLine e c ++ "\n    " ++ regionLine r ++ "\n    " ++ lockLine ++ "\n  \x7d\n\x7d\n" := by
  apply String.ext
  simp only [stateConfigText, bucketLine, keyLine, regionLine, lockLine,
    String.data_append, List.append_assoc]
  have m1 : ∀ t : List Char,
      ("\nterraform \x7b\n  backend \"s3\" \x7b\n    " : String).data ++
        (("bucket = \"" : String).data ++ t) =
      ("\nterraform \x7b\n  backend \"s3\" \x7b\n    bucket = \"" : String).data ++ t := by
    intro t; rw [← List.append_assoc]; rfl
  have m2 : ∀ t : List Char,
      ("\"" : String).data ++ (("\n    " : String).data ++ (("key    = \"" : String).data ++ t)) =
      ("\"\n    key    = \"" : String).data ++ t := by
    intro t; rw [← List.append_assoc, ← List.append_assoc]; rfl
  have m3 : ∀ t : List Char,
      ("/terraform.tfstate\"" : String).data ++
        (("\n    " : String).data ++ (("region = \"" : String).data ++ t)) =
      ("/terraform.tfstate\"\n    region = \"" : String).data ++ t := by
    intro t; rw [← List.append_assoc, ← List.append_assoc]; rfl
  have m4 : ("\"" : String).data ++ (("\n    " : String).data ++
        (("dynamodb_table = \"terraform_locks\"" : String).data ++
          ("\n  \x7d\n\x7d\n" : String).data)) =
      ("\"\n    dynamodb_table = \"terraform_locks\"\n  \x7d\n\x7d\n" : String).data := by
    rw [← List.append_assoc, ← List.append_assoc]; rfl
  rw [m1, m2, m3, m4]

end DeployInfra

/-! ### Claims about `deploy-infra.py` -/

/-- Claim C5 (code bug evidence): the spec declares `state_aws_region`
optional, and the code itself lists it in `optional_vars` and falls back to
`aws_region` in `generate_terraform_config`; but `required_vars` also
contains it, so `parse_args` rejects the example argument list that omits
it, exiting with a usage error instead of parsing successfully. -/
theorem infra_state_region_enforced_required :
    DeployInfra.parse_args
        ["env=live", "component=web", "aws_region=eu-west-1", "account_id=123456789012", "plan"]
      = .error "state_aws_region" ∧
    (DeployInfra.mainRun
        ["env=live", "component=web", "aws_region=eu-west-1", "account_id=123456789012", "plan"]
        DeployInfra.oracleOk).2 = .usageExit 1 ∧
    DeployInfra.optional_vars = ["state_aws_region"] ∧
    "state_aws_region" ∈ DeployInfra.required_vars ∧
    DeployInfra.generate_terraform_config
        (DeployInfra.dictInsert (DeployInfra.dictInsert (DeployInfra.dictInsert
          (DeployInfra.dictInsert DeployInfra.emptyDict "env" "live") "component" "web")
          "aws_region" "eu-west-1") "account_id" "123456789012")
      = some ("infra/state.tf",
          DeployInfra.stateConfigText (DeployInfra.s3BucketName "123456789012")
            "live" "web" "eu-west-1") :=
  ⟨rfl, rfl, rfl, by decide, rfl⟩

/-- Claim C7: an argument list missing any of the `env=`, `component=`,
`aws_region=`, `account_id=` assignments makes `main` write one error
message to stderr and exit with status 1, with no other external action
attempted (in particular no file or remote-state mutation). -/
theorem infra_missing_required_var_exits (args : List String) (o : DeployInfra.Oracle)
    (h : DeployInfra.lastValue args "env" = none ∨
         DeployInfra.lastValue args "component" = none ∨
         DeployInfra.lastValue args "aws_region" = none ∨
         DeployInfra.lastValue args "account_id" = none) :
    (DeployInfra.mainRun args o).2 = .usageExit 1 ∧
    (∃ var, (DeployInfra.mainRun args o).1 =
      [DeployInfra.Ev.stderr (DeployInfra.missingVarMsg var)]) ∧
    (DeployInfra.mainRun args o).1.countP (fun e => !DeployInfra.isStderr e) = 0 := by
  have hmiss : ∃ u, DeployInfra.firstMissing args = some u := by
    rw [← Option.isSome_iff_exists]
    unfold DeployInfra.firstMissing
    rw [List.find?_isSome]
    rcases h with h | h | h | h
    · exact ⟨"env", by decide, by rw [DeployInfra.found_vars_apply _ _ (by decide), h]; rfl⟩
    · exact ⟨"component", by decide, by rw [DeployInfra.found_vars_apply _ _ (by decide), h]; rfl⟩
    · exact ⟨"aws_region", by decide, by rw [DeployInfra.found_vars_apply _ _ (by decide), h]; rfl⟩
    · exact ⟨"account_id", by decide, by rw [DeployInfra.found_vars_apply _ _ (by decide), h]; rfl⟩
  obtain ⟨u, hu⟩ := hmiss
  have hp : DeployInfra.parse_args args = .error u := by
    unfold DeployInfra.parse_args
    rw [hu]
  refine ⟨?_, ⟨u, ?_⟩, ?_⟩ <;>
    simp [DeployInfra.mainRun, hp, DeployInfra.isStderr]

/-- Claim C7 witness: the bare argument list `["plan"]` exits with a usage
error and an error message only. -/
theorem infra_missing_required_var_exits_witness :
    (DeployInfra.mainRun ["plan"] DeployInfra.oracleOk).2 = .usageExit 1 ∧
    (∃ var, (DeployInfra.mainRun ["plan"] DeployInfra.oracleOk).1 =
      [DeployInfra.Ev.stderr (DeployInfra.missingVarMsg var)]) ∧
    (DeployInfra.mainRun ["plan"] DeployInfra.oracleOk).1.countP
      (fun e => !DeployInfra.isStderr e) = 0 :=
  infra_missing_required_var_exits ["plan"] DeployInfra.oracleOk (Or.inl rfl)

/-- Claim C8: for every successfully parsed input, the generated artifact is
written to `infra/state.tf` and declares an S3 backend whose bucket is the
fixed prefix `terraform-tfstate-` followed by the first six characters of
the MD5 hex digest of the account id (six characters, all hex digits),
whose key is `{env}/{component}/terraform.tfstate`, whose region is the
chosen state region (`state_aws_region` falling back to `aws_region`), and
whose DynamoDB lock table is the fixed name `terraform_locks`. -/
theorem backend_config_structure (parsed : DeployInfra.Dict) (a w e c : String)
    (ha : parsed "account_id" = some a) (hw : parsed "aws_region" = some w)
    (he : parsed "env" = some e) (hc : parsed "component" = some c) :
    DeployInfra.generate_terraform_config parsed =
      some ("infra/state.tf",
        "\nterraform \x7b\n  backend \"s3\" \x7b\n    " ++
          DeployInfra.bucketLine
            ("terraform-tfstate-" ++ DeployInfra.strTake (MD5.md5Hex a) 6) ++ "\n    " ++
          DeployInfra.keyLine e c ++ "\n    " ++
          DeployInfra.regionLine ((parsed "state_aws_region").getD w) ++ "\n    " ++
          DeployInfra.lockLine ++ "\n  \x7d\n\x7d\n") ∧
    (DeployInfra.strTake (MD5.md5Hex a) 6).data.length = 6 ∧
    ∀ ch ∈ (DeployInfra.strTake (MD5.md5Hex a) 6).data, ch ∈ DeployInfra.hexDigits.data := by
  refine ⟨?_, ?_, ?_⟩
  · simp only [DeployInfra.generate_terraform_config, ha, hw, he, hc]
    rw [DeployInfra.stateConfigText_eq]
    rfl
  · rw [DeployInfra.strTake_data, List.length_take, md5Hex_length]
    decide
  · intro ch hch
    rw [DeployInfra.strTake_data] at hch
    exact md5Hex_chars a ch (List.take_subset _ _ hch)

/-- Claim C8 witness: the derived bucket suffix for the example account id
has six characters. -/
theorem backend_config_structure_witness :
    (DeployInfra.strTake (MD5.md5Hex "123456789012") 6).data.length = 6 :=
  (backend_config_structure (DeployInfra.found_vars DeployInfra.exampleArgs)
    "123456789012" "eu-west-1" "staging" "payments" rfl rfl rfl rfl).2.1

/-- Claim C9: backend-config rendering depends only on the five extracted
values — two parsed inputs agreeing on `account_id`, `aws_region`,
`state_aws_region`, `env` and `component` render byte-identical
configuration text (the embedding is a pure function, so repeated runs on
the same input are trivially identical as well). -/
theorem backend_config_deterministic (p q : DeployInfra.Dict)
    (h1 : p "account_id" = q "account_id") (h2 : p "aws_region" = q "aws_region")
    (h3 : p "state_aws_region" = q "state_aws_region") (h4 : p "env" = q "env")
    (h5 : p "component" = q "component") :
    DeployInfra.generate_terraform_config p = DeployInfra.generate_terraform_config q := by
  simp only [DeployInfra.generate_terraform_config, h1, h2, h3, h4, h5]

/-- Claim C9 witness: two runs on the example input agree. -/
theorem backend_config_deterministic_witness :
    DeployInfra.generate_terraform_config (DeployInfra.found_vars DeployInfra.exampleArgs) =
      DeployInfra.generate_terraform_config (DeployInfra.found_vars DeployInfra.exampleArgs) :=
  backend_config_deterministic _ _ rfl rfl rfl rfl rfl

/-- The full trace of a run that reaches the tool-invocation step (arguments
parse, role assumption and `terraform init` succeed), for both outcomes of
the forwarded terraform invocation. -/
theorem mainRun_tool_trace (args : List String) (o : DeployInfra.Oracle)
    (parsed : DeployInfra.Dict) (a w e c : String)
    (hp : DeployInfra.parse_args args = .ok parsed)
    (ha : parsed "account_id" = some a) (hw : parsed "aws_region" = some w)
    (he : parsed "env" = some e) (hc : parsed "component" = some c)
    (hA : o.assumeOk = true) (hI : o.initOk = true) :
    DeployInfra.mainRun args o =
      (DeployInfra.cleanupEvents ++
        [DeployInfra.Ev.assumeRole (DeployInfra.adminRoleArn a) "terraform",
         DeployInfra.Ev.writeFile "infra/state.tf"
           (DeployInfra.stateConfigText (DeployInfra.s3BucketName a) e c
             ((parsed "state_aws_region").getD w)),
         DeployInfra.Ev.credstash "platform" c e,
         DeployInfra.Ev.symlink o.secretsPath "/tmp/secrets.json",
         DeployInfra.Ev.call ["terraform", "init"] "infra",
         DeployInfra.Ev.call (["terraform"] ++ args) "infra"] ++
        (if o.toolOk then DeployInfra.cleanupEvents else []),
       if o.toolOk then DeployInfra.RunResult.success
       else DeployInfra.RunResult.callFailed (["terraform"] ++ args)) := by
  cases ht : o.toolOk <;>
    simp [DeployInfra.mainRun, hp, ha, hw, he, hc, hA, hI, ht,
      DeployInfra.generate_terraform_config, DeployInfra.cleanupEvents]

/-- Claim C1 counterexample: on the example inputs with a failing forwarded
terraform invocation, the run fails and the trace contains exactly one
cleanup execution — the one before the tool invocation — and no cleanup at
all after the last subprocess invocation, refuting "cleanup executes exactly
once when the tool invocation fails" read as cleanup-after-failure. -/
theorem infra_no_cleanup_after_failed_tool :
    (DeployInfra.mainRun DeployInfra.exampleArgs DeployInfra.oracleToolFails).2 =
      DeployInfra.RunResult.callFailed (["terraform"] ++ DeployInfra.exampleArgs) ∧
    DeployInfra.countCleanups
      (DeployInfra.mainRun DeployInfra.exampleArgs DeployInfra.oracleToolFails).1 = 1 ∧
    DeployInfra.countCleanups
      (DeployInfra.afterLastCall
        (DeployInfra.mainRun DeployInfra.exampleArgs DeployInfra.oracleToolFails).1) = 0 := by
  decide

/-- Claim C1 (amended): for every run that reaches the tool-invocation step,
cleanup executes exactly once after the tool invocation on the success path
(two executions in total, one before and one after); when the forwarded
invocation fails, cleanup has executed exactly once — before the invocation
— and does not execute afterwards, because `main` has no `finally` block;
and `cleanup` is a no-op, not an error, when its targets are absent. -/
theorem infra_cleanup_discipline (args : List String) (o : DeployInfra.Oracle)
    (parsed : DeployInfra.Dict) (a w e c : String)
    (hp : DeployInfra.parse_args args = .ok parsed)
    (ha : parsed "account_id" = some a) (hw : parsed "aws_region" = some w)
    (he : parsed "env" = some e) (hc : parsed "component" = some c)
    (hA : o.assumeOk = true) (hI : o.initOk = true) :
    (o.toolOk = true →
      (DeployInfra.mainRun args o).2 = DeployInfra.RunResult.success ∧
      DeployInfra.countCleanups (DeployInfra.mainRun args o).1 = 2 ∧
      DeployInfra.countCleanups (DeployInfra.afterLastCall (DeployInfra.mainRun args o).1) = 1) ∧
    (o.toolOk = false →
      (DeployInfra.mainRun args o).2 =
        DeployInfra.RunResult.callFailed (["terraform"] ++ args) ∧
      DeployInfra.countCleanups (DeployInfra.mainRun args o).1 = 1 ∧
      DeployInfra.countCleanups (DeployInfra.afterLastCall (DeployInfra.mainRun args o).1) = 0) ∧
    (∀ fs : DeployInfra.FS, "infra/state.tf" ∉ fs → "infra/.terraform" ∉ fs →
      DeployInfra.cleanup fs = fs) := by
  have htr := mainRun_tool_trace args o parsed a w e c hp ha hw he hc hA hI
  refine ⟨?_, ?_, ?_⟩
  · intro ht
    rw [htr, ht]
    refine ⟨rfl, rfl, rfl⟩
  · intro ht
    rw [htr, ht]
    refine ⟨rfl, rfl, rfl⟩
  · intro fs h1 h2
    simp [DeployInfra.cleanup, DeployInfra.removePath, h1, h2]

/-- Claim C1 witness: on the example run with everything succeeding, cleanup
executes twice in total. -/
theorem infra_cleanup_discipline_witness :
    DeployInfra.countCleanups
      (DeployInfra.mainRun DeployInfra.exampleArgs DeployInfra.oracleOk).1 = 2 :=
  ((infra_cleanup_discipline DeployInfra.exampleArgs DeployInfra.oracleOk
      (DeployInfra.found_vars DeployInfra.exampleArgs) "123456789012" "eu-west-1" "staging"
      "payments" rfl rfl rfl rfl rfl rfl rfl).1 rfl).2.1

/-- Claim C6 counterexample: on the example inputs, the second terraform
invocation receives the full original argument list — extracted assignments
included — and is never invoked with only `plan`. -/
theorem infra_assignments_forwarded_to_tool :
    DeployInfra.Ev.call (["terraform"] ++ DeployInfra.exampleArgs) "infra" ∈
      (DeployInfra.mainRun DeployInfra.exampleArgs DeployInfra.oracleOk).1 ∧
    DeployInfra.Ev.call ["terraform", "plan"] "infra" ∉
      (DeployInfra.mainRun DeployInfra.exampleArgs DeployInfra.oracleOk).1 := by
  decide

/-- Claim C6 (amended): the runner invokes the IaC tool exactly twice — as
`terraform init` and then as `terraform` followed by the complete operator
argument list forwarded verbatim, the extracted `var=value` assignments
included, not removed. -/
theorem infra_forwarded_call_verbatim (args : List String) (o : DeployInfra.Oracle)
    (parsed : DeployInfra.Dict) (a w e c : String)
    (hp : DeployInfra.parse_args args = .ok parsed)
    (ha : parsed "account_id" = some a) (hw : parsed "aws_region" = some w)
    (he : parsed "env" = some e) (hc : parsed "component" = some c)
    (hA : o.assumeOk = true) (hI : o.initOk = true) :
    (DeployInfra.mainRun args o).1.filter DeployInfra.isCall =
      [DeployInfra.Ev.call ["terraform", "init"] "infra",
       DeployInfra.Ev.call (["terraform"] ++ args) "infra"] := by
  rw [mainRun_tool_trace args o parsed a w e c hp ha hw he hc hA hI]
  cases ht : o.toolOk <;>
    simp [ht, DeployInfra.cleanupEvents, DeployInfra.isCall]

/-- Claim C6 witness: the forwarded example invocation, with assignments. -/
theorem infra_forwarded_call_verbatim_witness :
    (DeployInfra.mainRun DeployInfra.exampleArgs DeployInfra.oracleOk).1.filter
        DeployInfra.isCall =
      [DeployInfra.Ev.call ["terraform", "init"] "infra",
       DeployInfra.Ev.call (["terraform"] ++ DeployInfra.exampleArgs) "infra"] :=
  infra_forwarded_call_verbatim DeployInfra.exampleArgs DeployInfra.oracleOk
    (DeployInfra.found_vars DeployInfra.exampleArgs) "123456789012" "eu-west-1" "staging"
    "payments" rfl rfl rfl rfl rfl rfl rfl

/-! ### Supporting lemmas: the release flow -/

theorem ensure_no_push_login (r : Release.State) (o : Release.Oracle) :
    (Release.ensure_ecr_repository_exists r o).1.countP Release.isPush = 0 ∧
    (Release.ensure_ecr_repository_exists r o).1.countP Release.isLogin = 0 := by
  unfold Release.ensure_ecr_repository_exists
  cases o.describe <;> cases hc : o.createOk <;> cases hp : o.policyOk <;>
    simp [Release.isPush, Release.isLogin, hc, hp]

theorem runLogins_no_push (entries : List (String × String)) :
    ∀ okF : Nat → Bool, (Release.runLogins okF entries).1.countP Release.isPush = 0 := by
  induction entries with
  | nil => intro okF; rfl
  | cons e rest ih =>
    intro okF
    obtain ⟨tok, endpoint⟩ := e
    unfold Release.runLogins
    cases hd : (B64.decodeToken tok).bind Release.splitUserPass with
    | none => simp
    | some up =>
      obtain ⟨u, p⟩ := up
      cases ho : okF 0 <;> simp [ho, Release.isPush, ih]

theorem runLogins_ok_trace (entries : List (String × String)) :
    ∀ okF : Nat → Bool, (Release.runLogins okF entries).2 = .ok () →
      (Release.runLogins okF entries).1 = entries.map Release.loginEv := by
  induction entries with
  | nil => intro okF _; rfl
  | cons e rest ih =>
    intro okF h
    obtain ⟨tok, endpoint⟩ := e
    unfold Release.runLogins at h ⊢
    cases hd : (B64.decodeToken tok).bind Release.splitUserPass with
    | none =>
      rw [hd] at h
      simp at h
    | some up =>
      obtain ⟨u, p⟩ := up
      rw [hd] at h
      cases ho : okF 0 with
      | false =>
        rw [ho] at h
        simp at h
      | true =>
        rw [ho] at h
        simp only [] at h
        simp at h
        simp [Release.loginEv, hd, ih _ h]

/-! ### Claims about the registry provisioning and push flow -/

/-- Claim C3: `_ensure_ecr_repository_exists` attempts the create call
exactly when the describe call fails with the not-found condition, attempts
the set-policy call right after a successful create (and only then); when
the repository exists it performs zero create/policy calls and succeeds;
and any other describe failure is re-raised with its code unmodified,
without attempting creation. -/
theorem ensure_branching (r : Release.State) (o : Release.Oracle) :
    ((Release.ensure_ecr_repository_exists r o).1.countP Release.isCreate =
      if o.describe = .notFound then 1 else 0) ∧
    ((Release.ensure_ecr_repository_exists r o).1.countP Release.isPolicy =
      if o.describe = .notFound ∧ o.createOk = true then 1 else 0) ∧
    (o.describe = .notFound → o.createOk = true →
      Release.ensure_ecr_repository_exists r o =
        ([Release.Ev.msg (Release.logHead ++ "checking ECR repository"),
          Release.Ev.describeRepositories r.component_name,
          Release.Ev.createRepository r.component_name,
          Release.Ev.setRepositoryPolicy r.component_name
            (Release.principalArn r.prod_account_id) Release.policyActions],
         if o.policyOk then .ok ()
         else .error (.clientError "SetRepositoryPolicyFailed"))) ∧
    (o.describe = .found →
      Release.ensure_ecr_repository_exists r o =
        ([Release.Ev.msg (Release.logHead ++ "checking ECR repository"),
          Release.Ev.describeRepositories r.component_name], .ok ())) ∧
    (∀ code, o.describe = .otherError code →
      Release.ensure_ecr_repository_exists r o =
        ([Release.Ev.msg (Release.logHead ++ "checking ECR repository"),
          Release.Ev.describeRepositories r.component_name],
         .error (.clientError code))) := by
  cases hd : o.describe <;> cases hc : o.createOk <;> cases hp : o.policyOk <;>
    simp [Release.ensure_ecr_repository_exists, hd, hc, hp,
      Release.isCreate, Release.isPolicy]

/-- Claim C3 witness: with the repository missing and both calls
succeeding, the trace is describe, create, then set-policy. -/
theorem ensure_branching_witness :
    Release.ensure_ecr_repository_exists Release.sampleState Release.oracleNotFound =
      ([Release.Ev.msg (Release.logHead ++ "checking ECR repository"),
        Release.Ev.describeRepositories Release.sampleState.component_name,
        Release.Ev.createRepository Release.sampleState.component_name,
        Release.Ev.setRepositoryPolicy Release.sampleState.component_name
          (Release.principalArn Release.sampleState.prod_account_id) Release.policyActions],
       .ok ()) :=
  (ensure_branching Release.sampleState Release.oracleNotFound).2.2.1 rfl rfl

/-- Claim C2: in the push step, provisioning events come first, then — once
the authorization token set is obtained — one docker login per returned
endpoint entry, in order, then exactly one push; and if provisioning or any
login fails, zero push events occur and the failure propagates. A run whose
version is present reaches exactly this push step from its version branch. -/
theorem push_flow_order (r : Release.State) (o : Release.Oracle) (image : String) :
    ((Release.ensure_ecr_repository_exists r o).2 = .ok () →
     (Release.runLogins o.loginOk o.authData).2 = .ok () →
      Release.push_to_ecr r o image =
        ((Release.ensure_ecr_repository_exists r o).1 ++
          [Release.Ev.msg (Release.logHead ++ "logging into ECR"),
           Release.Ev.getAuthorizationToken] ++
          o.authData.map Release.loginEv ++
          [Release.Ev.msg (Release.logHead ++ "pushing image " ++ image),
           Release.Ev.dockerPush ("docker push " ++ image)],
         if o.pushOk then .ok ()
         else .error (.processError ("docker push " ++ image))) ∧
      (Release.push_to_ecr r o image).1.countP Release.isPush = 1 ∧
      (o.authData.map Release.loginEv).length = o.authData.length) ∧
    (∀ err, (Release.ensure_ecr_repository_exists r o).2 = .error err →
      (Release.push_to_ecr r o image).1.countP Release.isPush = 0 ∧
      (Release.push_to_ecr r o image).1.countP Release.isLogin = 0 ∧
      (Release.push_to_ecr r o image).2 = .error err) ∧
    (∀ err, (Release.runLogins o.loginOk o.authData).2 = .error err →
      (Release.push_to_ecr r o image).1.countP Release.isPush = 0 ∧
      (Release.push_to_ecr r o image).2 ≠ .ok ()) ∧
    (∀ v, r.version = some v →
      Release.push_branch r o = Release.push_to_ecr r o r.ecr_image_name) := by
  obtain ⟨hep, hel⟩ := ensure_no_push_login r o
  refine ⟨?_, ?_, ?_, ?_⟩
  · intro he hl
    rcases hE : Release.ensure_ecr_repository_exists r o with ⟨ee, er⟩
    rw [hE] at he hep hel
    subst he
    rcases hL : Release.runLogins o.loginOk o.authData with ⟨le, lr⟩
    rw [hL] at hl
    subst hl
    have hmap : le = o.authData.map Release.loginEv := by
      have := runLogins_ok_trace o.authData o.loginOk (by rw [hL])
      rw [hL] at this
      exact this
    have htr : Release.push_to_ecr r o image =
        (ee ++ [Release.Ev.msg (Release.logHead ++ "logging into ECR"),
          Release.Ev.getAuthorizationToken] ++ le ++
          [Release.Ev.msg (Release.logHead ++ "pushing image " ++ image),
           Release.Ev.dockerPush ("docker push " ++ image)],
         if o.pushOk then .ok ()
         else .error (.processError ("docker push " ++ image))) := by
      unfold Release.push_to_ecr
      rw [hE, hL]
      cases hp : o.pushOk <;> simp [List.append_assoc]
    refine ⟨by rw [htr, hmap], ?_, by simp⟩
    rw [htr]
    simp [List.countP_append, hep, hmap, Release.isPush]
    intro a b hab
    unfold Release.loginEv
    cases (B64.decodeToken a).bind Release.splitUserPass with
    | none => rfl
    | some up => obtain ⟨u, p⟩ := up; rfl
  · intro err he
    rcases hE : Release.ensure_ecr_repository_exists r o with ⟨ee, er⟩
    rw [hE] at he hep hel
    subst he
    unfold Release.push_to_ecr
    rw [hE]
    exact ⟨hep, hel, rfl⟩
  · intro err hl
    rcases hE : Release.ensure_ecr_repository_exists r o with ⟨ee, er⟩
    rw [hE] at hep hel
    cases er with
    | error e =>
      unfold Release.push_to_ecr
      rw [hE]
      exact ⟨hep, by simp⟩
    | ok u =>
      cases u
      rcases hL : Release.runLogins o.loginOk o.authData with ⟨le, lr⟩
      rw [hL] at hl
      subst hl
      have hlp := runLogins_no_push o.authData o.loginOk
      rw [hL] at hlp
      unfold Release.push_to_ecr
      rw [hE, hL]
      simp [List.countP_append, hep, hlp, Release.isPush]
  · intro v hv
    unfold Release.push_branch
    rw [hv]

/-- Claim C2 witness: with everything succeeding, the push step performs
exactly one push. -/
theorem push_flow_order_witness :
    (Release.push_to_ecr Release.sampleState Release.oracleAllOk
      Release.sampleState.ecr_image_name).1.countP Release.isPush = 1 :=
  ((push_flow_order Release.sampleState Release.oracleAllOk
    Release.sampleState.ecr_image_name).1 rfl rfl).2.1

/-! ### Supporting lemmas: the create pipeline -/

theorem slug_step_no_registry (r : Release.State) (o : Release.Oracle) :
    (Release.slug_step r o).1.countP Release.isRegistryEv = 0 := by
  unfold Release.slug_step Release.build_slug
  by_cases ht : r.TYPE = "slug" <;>
    cases h1 : o.slug1 <;> cases h2 : o.slug2 <;> cases h3 : o.slug3 <;>
      simp [ht, h1, h2, h3, Release.isRegistryEv]

theorem prepare_step_no_registry (r : Release.State) (o : Release.Oracle) :
    (Release.prepare_step r o).1.countP Release.isRegistryEv = 0 := by
  unfold Release.prepare_step
  by_cases hp : o.prepareHookPresent <;> cases ho : o.prepareHookOk <;>
    simp [hp, ho, Release.isRegistryEv]

theorem on_build_step_no_registry (r : Release.State) (o : Release.Oracle) :
    (Release.on_build_step r o).1.countP Release.isRegistryEv = 0 := by
  unfold Release.on_build_step
  by_cases hp : o.onBuildHookPresent <;> cases ho : o.onBuildHookOk <;>
    simp [hp, ho, Release.isRegistryEv]

theorem slug_step_ok (r : Release.State) (o : Release.Oracle) (r' : Release.State)
    (h : (Release.slug_step r o).2 = .ok r') :
    r'.version = r.version ∧ r'.component_name = r.component_name ∧
    r'.DOCKER_BUILD_DIR = (if r.TYPE = "slug" then "target" else r.DOCKER_BUILD_DIR) := by
  unfold Release.slug_step Release.build_slug at h
  by_cases ht : r.TYPE = "slug"
  · rw [if_pos ht] at h
    cases h1 : o.slug1 <;> rw [h1] at h
    · simp at h
    · cases h2 : o.slug2 <;> rw [h2] at h
      · simp at h
      · cases h3 : o.slug3 <;> rw [h3] at h
        · simp at h
        · simp at h
          subst h
          simp [ht]
  · rw [if_neg ht] at h
    simp at h
    subst h
    simp [ht]

theorem create_trace_prefix (r0 : Release.State) (o : Release.Oracle)
    (e1 : List Release.Ev) (r' : Release.State)
    (h1 : Release.slug_step r0 o = (e1, .ok r')) :
    ∃ tail, (Release.create r0 o).1 = e1 ++ (Release.prepare_step r' o).1 ++ tail := by
  rcases h2 : Release.prepare_step r' o with ⟨e2, r2⟩
  cases r2 with
  | error err => exact ⟨[], by simp [Release.create, h1, h2]⟩
  | ok u =>
    cases u
    cases hb : o.buildOk with
    | false =>
      exact ⟨[Release.Ev.msg (Release.logHead ++ "building docker image " ++ r'.ecr_image_name),
        Release.Ev.dockerBuild (Release.dockerBuildCmd r')],
        by simp [Release.create, h1, h2, hb, List.append_assoc]⟩
    | true =>
      rcases h4 : Release.on_build_step r' o with ⟨e4, r4⟩
      cases r4 with
      | error err =>
        exact ⟨[Release.Ev.msg (Release.logHead ++ "building docker image " ++ r'.ecr_image_name),
          Release.Ev.dockerBuild (Release.dockerBuildCmd r'),
          Release.Ev.msg (Release.logHead ++ "image " ++ r'.ecr_image_name ++
            " successfully built")] ++ e4,
          by simp [Release.create, h1, h2, hb, h4, List.append_assoc]⟩
      | ok u2 =>
        cases u2
        rcases h5 : Release.push_branch r' o with ⟨pe, pr⟩
        cases pr with
        | error err =>
          exact ⟨[Release.Ev.msg (Release.logHead ++ "building docker image " ++
            r'.ecr_image_name), Release.Ev.dockerBuild (Release.dockerBuildCmd r'),
            Release.Ev.msg (Release.logHead ++ "image " ++ r'.ecr_image_name ++
              " successfully built")] ++ e4 ++ pe,
            by simp [Release.create, h1, h2, hb, h4, h5, List.append_assoc]⟩
        | ok u3 =>
          cases u3
          exact ⟨[Release.Ev.msg (Release.logHead ++ "building docker image " ++
            r'.ecr_image_name), Release.Ev.dockerBuild (Release.dockerBuildCmd r'),
            Release.Ev.msg (Release.logHead ++ "image " ++ r'.ecr_image_name ++
              " successfully built")] ++ e4 ++ pe ++
            [Release.Ev.msg (Release.logHead ++ "done.")],
            by simp [Release.create, h1, h2, hb, h4, h5, List.append_assoc]⟩

/-- Claim C4: a run with no version performs zero registry, authentication
or push operations on every path; and when the build phase succeeds it logs
"no version supplied, push skipped" and terminates successfully. -/
theorem release_no_version_skips_push (r : Release.State) (o : Release.Oracle)
    (hv : r.version = none) :
    (Release.create r o).1.countP Release.isRegistryEv = 0 ∧
    (o.slug1 = true → o.slug2 = true → o.slug3 = true → o.prepareHookOk = true →
     o.buildOk = true → o.onBuildHookOk = true →
      (Release.create r o).2 = .ok () ∧
      Release.Ev.msg (Release.logHead ++ "no version supplied, push skipped") ∈
        (Release.create r o).1) := by
  constructor
  · rcases h1 : Release.slug_step r o with ⟨e1, r1⟩
    have he1 : e1.countP Release.isRegistryEv = 0 := by
      have hh := slug_step_no_registry r o
      rw [h1] at hh
      exact hh
    cases r1 with
    | error err => simp [Release.create, h1, he1]
    | ok r' =>
      have hv' : r'.version = none := by
        have hh := slug_step_ok r o r' (by rw [h1])
        rw [hh.1, hv]
      rcases h2 : Release.prepare_step r' o with ⟨e2, r2⟩
      have he2 : e2.countP Release.isRegistryEv = 0 := by
        have hh := prepare_step_no_registry r' o
        rw [h2] at hh
        exact hh
      cases r2 with
      | error err => simp [Release.create, h1, h2, List.countP_append, he1, he2]
      | ok u =>
        cases u
        cases hb : o.buildOk with
        | false =>
          simp [Release.create, h1, h2, hb, List.countP_append, he1, he2,
            Release.isRegistryEv]
        | true =>
          rcases h4 : Release.on_build_step r' o with ⟨e4, r4⟩
          have he4 : e4.countP Release.isRegistryEv = 0 := by
            have hh := on_build_step_no_registry r' o
            rw [h4] at hh
            exact hh
          have h5 : Release.push_branch r' o =
              ([Release.Ev.msg (Release.logHead ++ "no version supplied, push skipped")],
               .ok ()) := by
            unfold Release.push_branch
            rw [hv']
          cases r4 with
          | error err =>
            simp [Release.create, h1, h2, hb, h4, List.countP_append, he1, he2, he4,
              Release.isRegistryEv]
          | ok u2 =>
            cases u2
            simp [Release.create, h1, h2, hb, h4, h5, List.countP_append, he1, he2, he4,
              Release.isRegistryEv]
  · intro hs1 hs2 hs3 hpk hbk hok
    have h1 : Release.slug_step r o =
        (if r.TYPE = "slug" then
          ([Release.Ev.msg (Release.logHead ++ "building slug"),
            Release.Ev.shellRun "mkdir -p target",
            Release.Ev.shellRun (Release.tarSlugCmd r.SLUG_BUILDER_DOCKER_OPTS),
            Release.Ev.shellRun "cp /infra/Dockerfile_slug target/Dockerfile"],
           .ok { r with DOCKER_BUILD_DIR := "target" })
         else ([], .ok r)) := by
      unfold Release.slug_step Release.build_slug
      by_cases ht : r.TYPE = "slug" <;> simp [ht, hs1, hs2, hs3]
    by_cases ht : r.TYPE = "slug" <;>
      by_cases hpp : o.prepareHookPresent <;>
        by_cases hop : o.onBuildHookPresent <;>
          simp [Release.create, h1, ht, Release.prepare_step, Release.on_build_step,
            Release.push_branch, hv, hpk, hbk, hok, hpp, hop]

/-- Claim C4 witness: the sample unversioned run performs zero registry
operations and succeeds. -/
theorem release_no_version_skips_push_witness :
    (Release.create Release.sampleStateNoVersion Release.oracleAllOk).1.countP
        Release.isRegistryEv = 0 ∧
    (Release.create Release.sampleStateNoVersion Release.oracleAllOk).2 = .ok () :=
  ⟨(release_no_version_skips_push Release.sampleStateNoVersion Release.oracleAllOk rfl).1,
   ((release_no_version_skips_push Release.sampleStateNoVersion Release.oracleAllOk rfl).2
      rfl rfl rfl rfl rfl rfl).1⟩

/-- Claim C10: with no version supplied and the `prepare-docker-build` hook
present, the hook is invoked with the literal version string "dev" in the
composed `component-version` identifier, together with the docker build
directory. -/
theorem prepare_hook_dev_version (r : Release.State) (o : Release.Oracle)
    (hv : r.version = none) (hpp : o.prepareHookPresent = true)
    (hs1 : o.slug1 = true) (hs2 : o.slug2 = true) (hs3 : o.slug3 = true) :
    Release.Ev.hookCall ("./prepare-docker-build " ++ r.component_name ++ "-" ++ "dev" ++
        " " ++ (if r.TYPE = "slug" then "target" else r.DOCKER_BUILD_DIR)) ∈
      (Release.create r o).1 := by
  by_cases ht : r.TYPE = "slug"
  · have h1 : Release.slug_step r o =
        ([Release.Ev.msg (Release.logHead ++ "building slug"),
          Release.Ev.shellRun "mkdir -p target",
          Release.Ev.shellRun (Release.tarSlugCmd r.SLUG_BUILDER_DOCKER_OPTS),
          Release.Ev.shellRun "cp /infra/Dockerfile_slug target/Dockerfile"],
         .ok { r with DOCKER_BUILD_DIR := "target" }) := by
      unfold Release.slug_step Release.build_slug
      simp [ht, hs1, hs2, hs3]
    obtain ⟨tail, htr⟩ := create_trace_prefix r o _ _ h1
    rw [htr]
    have h2 : (Release.prepare_step { r with DOCKER_BUILD_DIR := "target" } o).1 =
        [Release.Ev.msg (Release.logHead ++ "running " ++
          Release.prepareBuildCmd { r with DOCKER_BUILD_DIR := "target" }),
         Release.Ev.hookCall (Release.prepareBuildCmd { r with DOCKER_BUILD_DIR := "target" })] := by
      unfold Release.prepare_step
      cases ho : o.prepareHookOk <;> simp [hpp, ho]
    rw [h2]
    have hcmd : Release.prepareBuildCmd { r with DOCKER_BUILD_DIR := "target" } =
        "./prepare-docker-build " ++ r.component_name ++ "-" ++ "dev" ++ " " ++ "target" := by
      unfold Release.prepareBuildCmd
      simp [hv]
    rw [hcmd]
    simp [ht]
  · have h1 : Release.slug_step r o = ([], .ok r) := by
      unfold Release.slug_step
      simp [ht]
    obtain ⟨tail, htr⟩ := create_trace_prefix r o _ _ h1
    rw [htr]
    have h2 : (Release.prepare_step r o).1 =
        [Release.Ev.msg (Release.logHead ++ "running " ++ Release.prepareBuildCmd r),
         Release.Ev.hookCall (Release.prepareBuildCmd r)] := by
      unfold Release.prepare_step
      cases ho : o.prepareHookOk <;> simp [hpp, ho]
    rw [h2]
    have hcmd : Release.prepareBuildCmd r =
        "./prepare-docker-build " ++ r.component_name ++ "-" ++ "dev" ++ " " ++
          r.DOCKER_BUILD_DIR := by
      unfold Release.prepareBuildCmd
      simp [hv]
    rw [hcmd]
    simp [ht]

/-- Claim C10 witness: the sample unversioned run with the hook present
invokes it with the `payments-dev` identifier and build directory. -/
theorem prepare_hook_dev_version_witness :
    Release.Ev.hookCall ("./prepare-docker-build " ++
        Release.sampleStateNoVersion.component_name ++ "-" ++ "dev" ++ " " ++
        (if Release.sampleStateNoVersion.TYPE = "slug" then "target"
         else Release.sampleStateNoVersion.DOCKER_BUILD_DIR)) ∈
      (Release.create Release.sampleStateNoVersion Release.oracleWithPrepareHook).1 :=
  prepare_hook_dev_version Release.sampleStateNoVersion Release.oracleWithPrepareHook
    rfl rfl rfl rfl rfl
